import Mathlib

/-!
Verification of the DataAI core (src/core/code_executor.py,
src/utils/helper.py, src/core/context_manager.py, src/core/ai_manager.py).

Python strings are modelled as Lean `String`s (sequences of code points);
`str.upper`, `str.lower`, `str.strip`, `str.split`, `str.replace`, slicing
and `len` are modelled code-point-wise on the underlying character list,
which coincides with Python on the ASCII data these functions handle.
Collaborators that the code only calls out to (the DuckDB engine behind
`conn.execute`, the OpenAI generation calls, the Python `exec` of generated
scripts) are passed in as oracle functions returning `Except`, so that an
exception raised inside them is an `Except.error` and the surrounding
`try/except` logic can be embedded directly.
-/

/-- Python `len` on a string: number of code points. -/
def pyLen (s : String) : Nat := s.data.length

/-- Python slice `s[:n]`. -/
def pyTake (s : String) (n : Nat) : String := ⟨s.data.take n⟩

/-- Python `str.upper` (ASCII model: code-point-wise upcasing). -/
def pyUpper (s : String) : String := ⟨s.data.map Char.toUpper⟩

/-- Python `str.lower` (ASCII model: code-point-wise downcasing). -/
def pyLower (s : String) : String := ⟨s.data.map Char.toLower⟩

/-- Python `str.startswith`. -/
def pyStartsWith (s pre : String) : Bool := pre.data.isPrefixOf s.data

/-- Python substring test `needle in haystack`. -/
def pyContains (hay needle : String) : Bool :=
  (List.range (hay.data.length + 1)).any (fun i => needle.data.isPrefixOf (hay.data.drop i))

/-- Python `str.strip()` (whitespace model: space, tab, CR, LF). -/
def pyStrip (s : String) : String :=
  ⟨(((s.data.dropWhile Char.isWhitespace).reverse.dropWhile Char.isWhitespace).reverse)⟩

/-- Helper for `pySplit`: scan the character list, cutting at each
occurrence of the (non-empty) separator.  The fuel argument is the length
of the list, which bounds the number of scan steps. -/
def pySplitAux (sep : List Char) : Nat → List Char → List Char → List (List Char)
  | 0, rest, acc => [acc.reverse ++ rest]
  | _ + 1, [], acc => [acc.reverse]
  | fuel + 1, c :: rest, acc =>
    if sep.isPrefixOf (c :: rest) then
      acc.reverse :: pySplitAux sep fuel (List.drop sep.length (c :: rest)) []
    else
      pySplitAux sep fuel rest (c :: acc)

/-- Python `s.split(sep)` for a non-empty separator. -/
def pySplit (s : String) (sep : String) : List String :=
  (pySplitAux sep.data s.data.length s.data []).map (fun l => ⟨l⟩)

/-- Helper for `pyReplace`: replace every (non-overlapping, leftmost-first)
occurrence of the non-empty pattern. -/
def pyReplaceAux (pat repl : List Char) : Nat → List Char → List Char
  | 0, rest => rest
  | _ + 1, [] => []
  | fuel + 1, c :: rest =>
    if pat.isPrefixOf (c :: rest) then
      repl ++ pyReplaceAux pat repl fuel (List.drop pat.length (c :: rest))
    else
      c :: pyReplaceAux pat repl fuel rest

/-- Python `s.replace(pat, repl)` for a non-empty pattern. -/
def pyReplace (s pat repl : String) : String :=
  ⟨pyReplaceAux pat.data repl.data s.data.length s.data⟩

/-- Python `sep.join(parts)`. -/
def pyJoin (sep : String) : List String → String
  | [] => ""
  | [x] => x
  | x :: y :: xs => x ++ sep ++ pyJoin sep (y :: xs)

/-- A single apostrophe, as used in the quoted fragments of the error
messages built by the executor. -/
def pyQuote : String := ⟨[Char.ofNat 39]⟩

/-- Truthiness of the `error` component of an executor result, as tested by
`if error:` in helper.py: `None` and the empty string are falsy. -/
def errTruthy : Option String → Bool
  | some s => s ≠ ""
  | none => false

/-! ## Data model: pandas DataFrames (as produced by `conn.execute(...).df()`) -/

/-- A cell of a result DataFrame: either a Python `str`, or some other value
carried together with its `str(...)` rendering (numbers, dates, ...). -/
inductive Cell where
  | strVal (s : String)
  | otherVal (rep : String)
deriving Repr, BEq, DecidableEq

/-- Python `str(cell)`. -/
def Cell.pyStr : Cell → String
  | .strVal s => s
  | .otherVal r => r

/-- A pandas DataFrame: named columns and rows of cells. -/
structure DataFrame where
  cols : List String
  rows : List (List Cell)
deriving Repr, BEq, DecidableEq

/-- pandas `df.empty`: true when either axis has length 0. -/
def DataFrame.empty (df : DataFrame) : Bool :=
  df.rows.isEmpty || df.cols.isEmpty

/-! ## CodeExecutor (src/core/code_executor.py) -/

namespace CodeExecutor

/-- The `dangerous_keywords` list of `execute_sql`. -/
def dangerous_keywords : List String :=
  ["DROP", "DELETE", "UPDATE", "INSERT", "ALTER",
   "CREATE", "TRUNCATE", "GRANT", "REVOKE", "EXEC"]

/-- The `forbidden_patterns` list of `execute_python`. -/
def forbidden_patterns : List String :=
  ["os.system", "subprocess", "eval(", "exec(",
   "__import__", "compile", "open("]

/-- How many times `conn.register` and `conn.execute` were invoked during a
call to `execute_sql`. -/
structure EngineTrace where
  registers : Nat
  executes : Nat
deriving Repr, DecidableEq

/-- `CodeExecutor.execute_sql`.  The query engine (`conn.register` followed
by `conn.execute(code).df()`) is an oracle `engine`; an exception raised by
it is `Except.error` and is caught by the `try/except`.  Besides the
`(result_df, error)` pair the embedding returns the number of engine
invocations that happened during the call. -/
def execute_sql (engine : String → Except String DataFrame) (code : String) :
    (Option DataFrame × Option String) × EngineTrace :=
  let code_upper := pyUpper (pyStrip code)
  if !(pyStartsWith code_upper "SELECT") then
    ((none, some "Only SELECT queries are allowed in SQL mode"), ⟨0, 0⟩)
  else
    match dangerous_keywords.find? (fun kw => pyContains code_upper kw) with
    | some kw =>
        ((none, some ("Dangerous keyword " ++ pyQuote ++ kw ++ pyQuote ++ " is not allowed")),
         ⟨0, 0⟩)
    | none =>
        match engine code with
        | .ok result => ((some result, none), ⟨1, 1⟩)
        | .error e => ((none, some e), ⟨1, 1⟩)

/-- `CodeExecutor.execute_python`.  The `exec` of the script in the
restricted namespace (and the construction of the result dict from it) is
the oracle `run`; an exception raised inside the `try` is `Except.error`. -/
def execute_python {ρ : Type} (run : String → Except String ρ) (code : String) :
    Option ρ × Option String :=
  let code_lower := pyLower code
  match forbidden_patterns.find? (fun p => pyContains code_lower p) with
  | some p =>
      (none, some ("Forbidden operation: " ++ pyQuote ++ p ++ pyQuote ++ " is not allowed for safety"))
  | none =>
      match run code with
      | .ok result => (some result, none)
      | .error e => (none, some e)

end CodeExecutor

/-- Exactly one component of a `(result, error)` pair is `None`. -/
def exactlyOneNone {α : Type} (pr : Option α × Option String) : Prop :=
  (pr.1.isSome ∧ pr.2 = none) ∨ (pr.1 = none ∧ pr.2.isSome)

/-- Claim C1: whenever the stripped, upper-cased SQL text does not start with
`SELECT`, or contains one of the dangerous keywords, `execute_sql` returns a
rejection `(None, message)` with zero `conn.register` and zero `conn.execute`
invocations, for every possible engine. -/
theorem execute_sql_policy_rejects_without_engine
    (engine : String → Except String DataFrame) (code : String)
    (h : ¬ pyStartsWith (pyUpper (pyStrip code)) "SELECT"
         ∨ ∃ kw ∈ CodeExecutor.dangerous_keywords, pyContains (pyUpper (pyStrip code)) kw) :
    ∃ msg, CodeExecutor.execute_sql engine code = ((none, some msg), ⟨0, 0⟩) := by
  unfold CodeExecutor.execute_sql
  rcases h with h | h
  · simp [h]
  · have hfind : (CodeExecutor.dangerous_keywords.find?
        (fun kw => pyContains (pyUpper (pyStrip code)) kw)).isSome := by
      rw [List.find?_isSome]
      rcases h with ⟨kw, hmem, hc⟩
      exact ⟨kw, hmem, hc⟩
    by_cases hs : pyStartsWith (pyUpper (pyStrip code)) "SELECT"
    · simp only [hs, Bool.not_true, Bool.false_eq_true, if_false]
      rcases hk : CodeExecutor.dangerous_keywords.find?
          (fun kw => pyContains (pyUpper (pyStrip code)) kw) with _ | kw
      · rw [hk] at hfind; simp at hfind
      · simp
    · simp [hs]

/-- Witness for C1 at a concrete rejected statement. -/
theorem execute_sql_policy_rejects_witness :
    ∃ msg, CodeExecutor.execute_sql (fun _ => Except.error "engine reached") "DROP TABLE t"
      = ((none, some msg), ⟨0, 0⟩) :=
  execute_sql_policy_rejects_without_engine (fun _ => Except.error "engine reached")
    "DROP TABLE t" (Or.inl (by decide))

/-- Claim C10: every value returned by `execute_sql` and by `execute_python`
is a pair in which exactly one of result and error is `None`: a non-`None`
result with `None` error on success, a `None` result with a string error on
rejection or failure. -/
theorem executor_result_error_exclusive
    (engine : String → Except String DataFrame) (codeS : String)
    {ρ : Type} (run : String → Except String ρ) (codeP : String) :
    exactlyOneNone (CodeExecutor.execute_sql engine codeS).1
      ∧ exactlyOneNone (CodeExecutor.execute_python run codeP) := by
  constructor
  · unfold CodeExecutor.execute_sql exactlyOneNone
    by_cases hs : pyStartsWith (pyUpper (pyStrip codeS)) "SELECT"
    · simp only [hs, Bool.not_true, Bool.false_eq_true, if_false]
      rcases hk : CodeExecutor.dangerous_keywords.find?
          (fun kw => pyContains (pyUpper (pyStrip codeS)) kw) with _ | kw
      · rcases he : engine codeS with df | e <;> simp
      · simp
    · simp [hs]
  · unfold CodeExecutor.execute_python exactlyOneNone
    rcases hf : CodeExecutor.forbidden_patterns.find?
        (fun p => pyContains (pyLower codeP) p) with _ | p
    · rcases hr : run codeP with r | e <;> simp [hf]
    · simp [hf]

/-! ## Python runtime values for the compactor arguments

`_format_python_compact` receives, in the code, the dict built by
`execute_python`; `_format_dataframe_compact` receives a DataFrame.  To
settle claims about malformed arguments the compactors are also embedded
over a dynamic value universe, where an attribute access on a value of the
wrong type is the `AttributeError` Python would raise. -/

/-- A dynamically typed Python value, as can appear in the fields of the
result dict (`output`, `fig`, and the values of `namespace`). -/
inductive PyVal where
  | vNone
  | vStr (s : String)
  | vInt (n : Int)
  | vFig
  | vDict (entries : List (String × PyVal))
  | vDF (df : DataFrame)

/-- Python's name for the type of a value, used in error messages. -/
def pyTypeName : PyVal → String
  | .vNone => "NoneType"
  | .vStr _ => "str"
  | .vInt _ => "int"
  | .vFig => "Figure"
  | .vDict _ => "dict"
  | .vDF _ => "DataFrame"

/-- The message of the `AttributeError` raised by `x.attr` on a value with
no such attribute. -/
def noAttrMsg (ty attr : String) : String :=
  "AttributeError: " ++ pyQuote ++ ty ++ pyQuote ++ " object has no attribute "
    ++ pyQuote ++ attr ++ pyQuote

/-- Python truthiness of a value (`if v:`).  Testing a pandas DataFrame
raises `ValueError`, hence the `Except`. -/
def pyTruthy : PyVal → Except String Bool
  | .vNone => .ok false
  | .vStr s => .ok (s ≠ "")
  | .vInt n => .ok (n ≠ 0)
  | .vFig => .ok true
  | .vDict entries => .ok (!entries.isEmpty)
  | .vDF _ => .error "ValueError: The truth value of a DataFrame is ambiguous."

/-- The possible shapes of the `result` argument of
`_format_python_compact` that the claims quantify over: the well-typed
dict, or a malformed `None` / primitive non-dict. -/
inductive PyArg where
  | pyNone
  | pyStrArg (s : String)
  | pyIntArg (n : Int)
  | pyDictArg (entries : List (String × PyVal))

/-- The possible shapes of the `df` argument of
`_format_dataframe_compact`: a DataFrame, or a malformed `None` /
primitive non-DataFrame. -/
inductive DfArg where
  | pyNone
  | pyStrArg (s : String)
  | pyIntArg (n : Int)
  | pyDFArg (df : DataFrame)

/-! ## ContextManager (src/core/context_manager.py) -/

namespace ContextManager

/-- `ContextManager.MAX_MESSAGE_LENGTH`: max chars per message. -/
def MAX_MESSAGE_LENGTH : Nat := 500

/-- `ContextManager.DEFAULT_CONTEXT_LIMIT`. -/
def DEFAULT_CONTEXT_LIMIT : Nat := 5

/-- The final truncation step shared by both compactors:
`result[:MAX_MESSAGE_LENGTH] + "..."` when the text is over budget. -/
def truncateToBudget (s : String) : String :=
  if pyLen s > MAX_MESSAGE_LENGTH then pyTake s MAX_MESSAGE_LENGTH ++ "..." else s

/-- `row[col]` for the row Series at a column position. -/
def cellAt (row : List Cell) (i : Nat) : Cell := row.getD i (Cell.otherVal "None")

/-- Helper for `uniqueVals` (first-appearance deduplication with a seen
accumulator, structurally recursive). -/
def uniqueValsAux : List Cell → List Cell → List Cell
  | [], _ => []
  | c :: rest, seen =>
    if seen.contains c then uniqueValsAux rest seen
    else c :: uniqueValsAux rest (c :: seen)

/-- pandas `Series.unique()`: distinct values in order of first appearance
(`Series.nunique()` is its length). -/
def uniqueVals (l : List Cell) : List Cell := uniqueValsAux l []

/-- The sample-row rendering of a cell: strings longer than 20 characters
are elided to `val[:20] + "..."`, other values print as `str(val)`. -/
def sampleCellStr : Cell → String
  | .strVal s => if pyLen s > 20 then pyTake s 20 ++ "..." else s
  | .otherVal r => r

/-- `ContextManager._format_dataframe_compact`. -/
def format_dataframe_compact (df : DataFrame) : String :=
  if df.empty then "Empty result (0 rows)"
  else
    let parts := ["Results: " ++ toString df.rows.length ++ " rows × "
      ++ toString df.cols.length ++ " columns"]
    let col_names := pyJoin ", " (df.cols.take 10)
    let col_names :=
      if df.cols.length > 10 then
        col_names ++ ", ... (" ++ toString (df.cols.length - 10) ++ " more)"
      else col_names
    let parts := parts ++ ["Columns: " ++ col_names]
    let patterns := (df.cols.enum.take 3).filterMap (fun ic =>
      let vals := df.rows.map (fun r => cellAt r ic.1)
      let u := uniqueVals vals
      if u.length = 1 then
        some ("All " ++ ic.2 ++ "=" ++ (cellAt (df.rows.headD []) ic.1).pyStr)
      else if u.length ≤ 3 then
        some (ic.2 ++ " values: " ++ pyJoin ", " ((u.take 3).map Cell.pyStr))
      else none)
    let parts :=
      if patterns ≠ [] then parts ++ ["Patterns: " ++ pyJoin "; " patterns] else parts
    let sample_rows := (df.rows.take (min 2 df.rows.length)).map (fun row =>
      pyJoin ", " ((df.cols.enum.take 4).map (fun ic =>
        ic.2 ++ "=" ++ sampleCellStr (cellAt row ic.1))))
    let parts :=
      if sample_rows ≠ [] then parts ++ ["Sample: " ++ pyJoin " | " sample_rows] else parts
    truncateToBudget (pyJoin "\n" parts)

/-- The `Output:` section of `_format_python_compact`: first 5 lines of the
captured console output, with a truncation marker. -/
def outputSection (output : String) : String :=
  let allLines := pySplit output "\n"
  let lines := allLines.take 5
  let truncated := pyJoin "\n" lines
  let truncated :=
    if lines.length < allLines.length then truncated ++ "\n... (truncated)" else truncated
  "Output:\n" ++ truncated

/-- The line `_format_python_compact` emits for a namespace entry bound to
a DataFrame (entries of other types are skipped by the `isinstance`). -/
def namespaceEntryLine (p : String × PyVal) : Option String :=
  match p.2 with
  | .vDF d => some ("Created DataFrame " ++ pyQuote ++ p.1 ++ pyQuote ++ ": "
      ++ toString d.rows.length ++ " rows × " ++ toString d.cols.length ++ " columns")
  | _ => none

/-- `ContextManager._format_python_compact` over the dynamic argument
universe.  Each attribute access / truthiness test of the source is
checked in the order Python evaluates them; a failing one short-circuits
with the exception Python would raise. -/
def format_python_compact_dyn : PyArg → Except String String
  | .pyNone => .error (noAttrMsg "NoneType" "get")
  | .pyStrArg _ => .error (noAttrMsg "str" "get")
  | .pyIntArg _ => .error (noAttrMsg "int" "get")
  | .pyDictArg entries =>
    let outputV := (List.lookup "output" entries).getD PyVal.vNone
    match pyTruthy outputV with
    | .error e => .error e
    | .ok tout =>
      let outPartsE : Except String (List String) :=
        if tout then
          match outputV with
          | PyVal.vStr s => .ok [outputSection s]
          | v => .error (noAttrMsg (pyTypeName v) "split")
        else .ok []
      match outPartsE with
      | .error e => .error e
      | .ok outParts =>
        let figV := (List.lookup "fig" entries).getD PyVal.vNone
        match pyTruthy figV with
        | .error e => .error e
        | .ok tfig =>
          let figParts := if tfig then ["Generated chart (Plotly figure)"] else []
          let nsV := (List.lookup "namespace" entries).getD (PyVal.vDict [])
          let nsPartsE : Except String (List String) :=
            match nsV with
            | PyVal.vDict nsEntries => .ok (nsEntries.filterMap namespaceEntryLine)
            | PyVal.vDF _ => .ok []
            | v => .error (noAttrMsg (pyTypeName v) "items")
          match nsPartsE with
          | .error e => .error e
          | .ok nsParts =>
            let parts := outParts ++ figParts ++ nsParts
            if parts.isEmpty then .ok "Code executed successfully (no output)"
            else .ok (truncateToBudget (pyJoin "\n" parts))

/-- `ContextManager._format_dataframe_compact` over the dynamic argument
universe: the very first attribute access `df.empty` raises on a
non-DataFrame argument. -/
def format_dataframe_compact_dyn : DfArg → Except String String
  | .pyNone => .error (noAttrMsg "NoneType" "empty")
  | .pyStrArg _ => .error (noAttrMsg "str" "empty")
  | .pyIntArg _ => .error (noAttrMsg "int" "empty")
  | .pyDFArg df => .ok (format_dataframe_compact df)

/-- A message of `ContextManager.messages`. -/
structure CtxMessage where
  role : String
  content : String
  mode : String
deriving Repr, BEq, DecidableEq

/-- Python negative-slice `xs[-limit:]`.  Note `xs[-0:]` is `xs[0:]`, the
whole list. -/
def pyLastSlice {α : Type} (xs : List α) (limit : Nat) : List α :=
  if limit = 0 then xs else xs.drop (xs.length - limit)

/-- `ContextManager.get_context_for_ai`. -/
def get_context_for_ai (messages : List CtxMessage)
    (limit : Nat := DEFAULT_CONTEXT_LIMIT) : List CtxMessage :=
  if messages.length > 0 then pyLastSlice messages limit else []

end ContextManager

/-- The truncation step never yields more than the budget plus the three
appended ellipsis characters. -/
theorem pyLen_truncateToBudget (s : String) :
    pyLen (ContextManager.truncateToBudget s) ≤ ContextManager.MAX_MESSAGE_LENGTH + 3 := by
  unfold ContextManager.truncateToBudget
  by_cases h : pyLen s > ContextManager.MAX_MESSAGE_LENGTH
  · have h3 : pyLen (pyTake s ContextManager.MAX_MESSAGE_LENGTH ++ "...")
        = (s.data.take ContextManager.MAX_MESSAGE_LENGTH).length + 3 := by
      simp [pyLen, pyTake, String.data_append]
    simp only [h, if_true, h3, List.length_take]
    omega
  · simp only [h, if_false]
    unfold pyLen at h ⊢
    omega

/-- A column name long enough to push the compact rendering over the
500-character budget. -/
def wideColName : String := ⟨List.replicate 150 'a'⟩

/-- A 1×1 result DataFrame whose compact rendering is truncated. -/
def oversizedDF : DataFrame := ⟨[wideColName], [[Cell.otherVal "1"]]⟩

set_option maxRecDepth 40000 in
/-- Counterexample to claim C4 as stated: the compact text of this concrete
result DataFrame has length 503, exceeding the 500-character budget,
because the truncation appends `"..."` after cutting at 500. -/
theorem format_dataframe_compact_exceeds_budget :
    ContextManager.MAX_MESSAGE_LENGTH
        < pyLen (ContextManager.format_dataframe_compact oversizedDF)
      ∧ pyLen (ContextManager.format_dataframe_compact oversizedDF) = 503 := by
  constructor <;> decide

/-- Claim C4 (amended): the text either compactor derives from an execution
outcome never exceeds `MAX_MESSAGE_LENGTH + 3` characters, i.e. 503: the
500-character budget plus the three-character ellipsis appended on
truncation.  The second conjunct covers every `result` dict on which
`_format_python_compact` returns at all. -/
theorem compact_turns_bounded :
    (∀ df : DataFrame,
        pyLen (ContextManager.format_dataframe_compact df)
          ≤ ContextManager.MAX_MESSAGE_LENGTH + 3)
      ∧ (∀ (a : PyArg) (s : String),
          ContextManager.format_python_compact_dyn a = Except.ok s →
          pyLen s ≤ ContextManager.MAX_MESSAGE_LENGTH + 3) := by
  constructor
  · intro df
    unfold ContextManager.format_dataframe_compact
    by_cases h : df.empty
    · simp only [h, if_true]
      decide
    · simp only [h, Bool.false_eq_true, if_false]
      exact pyLen_truncateToBudget _
  · intro a s h
    cases a with
    | pyNone => simp [ContextManager.format_python_compact_dyn] at h
    | pyStrArg x => simp [ContextManager.format_python_compact_dyn] at h
    | pyIntArg x => simp [ContextManager.format_python_compact_dyn] at h
    | pyDictArg entries =>
      simp only [ContextManager.format_python_compact_dyn] at h
      repeat' split at h
      all_goals first
        | exact Except.noConfusion h
        | (injection h with h
           subst h
           first
             | decide
             | exact pyLen_truncateToBudget _)

/-- Witness for the conditional conjunct of the amended C4, at the empty
result dict (whose compact text is the generic summary). -/
theorem compact_turns_bounded_witness :
    pyLen "Code executed successfully (no output)"
      ≤ ContextManager.MAX_MESSAGE_LENGTH + 3 :=
  compact_turns_bounded.2 (PyArg.pyDictArg [])
    "Code executed successfully (no output)" rfl

/-- Counterexample to claim C5 as stated: on the malformed input `None`
both compactors raise `AttributeError` (at `result.get` respectively
`df.empty`) instead of degrading to a generic summary. -/
theorem format_compact_raises_on_none :
    ContextManager.format_python_compact_dyn PyArg.pyNone
        = Except.error (noAttrMsg "NoneType" "get")
      ∧ ContextManager.format_dataframe_compact_dyn DfArg.pyNone
        = Except.error (noAttrMsg "NoneType" "empty") :=
  ⟨rfl, rfl⟩

/-- Claim C5 (amended): the compactors are total — returning a string, with
the generic summary on inputs carrying no detail — on every well-typed
executor result: any DataFrame, and any result dict whose `output` field is
a string, whose `fig` field has defined truthiness, and whose `namespace`
field is a dict.  On `None` or non-dict inputs they instead raise
`AttributeError`. -/
theorem compactors_total_on_welltyped_results :
    (∀ (output : String) (figV : PyVal) (b : Bool) (ns : List (String × PyVal)),
        pyTruthy figV = Except.ok b →
        ∃ s, ContextManager.format_python_compact_dyn
            (PyArg.pyDictArg [("output", PyVal.vStr output), ("fig", figV),
              ("namespace", PyVal.vDict ns)]) = Except.ok s)
      ∧ (∀ df : DataFrame,
          ∃ s, ContextManager.format_dataframe_compact_dyn (DfArg.pyDFArg df)
            = Except.ok s) := by
  constructor
  · intro output figV b ns hfig
    simp only [ContextManager.format_python_compact_dyn, List.lookup]
    simp only [show (("output" == "output") = true) from rfl,
      show (("output" == "fig") = false) from rfl,
      show (("output" == "namespace") = false) from rfl,
      show (("fig" == "output") = false) from rfl,
      show (("fig" == "fig") = true) from rfl,
      show (("fig" == "namespace") = false) from rfl,
      show (("namespace" == "output") = false) from rfl,
      show (("namespace" == "fig") = false) from rfl,
      show (("namespace" == "namespace") = true) from rfl,
      if_true, if_false]
    simp only [Option.getD_some, hfig, pyTruthy]
    repeat' split
    all_goals try exact ⟨_, rfl⟩
    all_goals try (rename_i heq; split at heq)
    all_goals simp_all [pyTruthy]
  · intro df
    exact ⟨_, rfl⟩

/-- Witness for the amended C5 at a concrete well-typed result dict. -/
theorem compactors_total_witness :
    ∃ s, ContextManager.format_python_compact_dyn
        (PyArg.pyDictArg [("output", PyVal.vStr "hello"), ("fig", PyVal.vFig),
          ("namespace", PyVal.vDict [])]) = Except.ok s :=
  compactors_total_on_welltyped_results.1 "hello" PyVal.vFig true [] rfl

/-- A concrete conversation message. -/
def msgA : ContextManager.CtxMessage := ⟨"user", "first question", "sql"⟩

/-- Another concrete conversation message. -/
def msgB : ContextManager.CtxMessage := ⟨"assistant", "first answer", "sql"⟩

/-- Counterexample to claim C9 as stated: with `limit = 0` and a non-empty
history, `get_context_for_ai` returns the whole history (`messages[-0:]` is
`messages[0:]` in Python), not the most recent 0 messages. -/
theorem get_context_limit_zero_returns_all :
    ContextManager.get_context_for_ai [msgA] 0 = [msgA]
      ∧ ContextManager.get_context_for_ai [msgA] 0 ≠ [] :=
  ⟨rfl, by decide⟩

/-- Claim C9 (amended): for every `limit ≥ 1`, `get_context_for_ai` returns
exactly the suffix of the most recent `min limit length` messages, in their
original order; the default limit is 5.  (At `limit = 0` the whole history
is returned instead.) -/
theorem get_context_recent_suffix
    (messages : List ContextManager.CtxMessage) (limit : Nat) (h : 1 ≤ limit) :
    ContextManager.DEFAULT_CONTEXT_LIMIT = 5
      ∧ ContextManager.get_context_for_ai messages limit
        = messages.drop (messages.length - limit)
      ∧ (ContextManager.get_context_for_ai messages limit).length
        = min limit messages.length
      ∧ messages.take (messages.length - limit)
          ++ ContextManager.get_context_for_ai messages limit = messages := by
  refine ⟨rfl, ?_⟩
  unfold ContextManager.get_context_for_ai ContextManager.pyLastSlice
  cases messages with
  | nil => simp
  | cons m ms =>
    have hl : (m :: ms).length > 0 := by simp
    have hz : limit ≠ 0 := by omega
    simp only [hl, if_true, hz, if_false, List.length_drop]
    refine ⟨trivial, ?_, List.take_append_drop _ _⟩
    omega

/-- Witness for the amended C9: two messages, limit 1, yields the most
recent message only. -/
theorem get_context_recent_suffix_witness :
    ContextManager.get_context_for_ai [msgA, msgB] 1 = [msgB] := by
  have h := get_context_recent_suffix [msgA, msgB] 1 (by decide)
  simpa using h.2.1

/-! ## AIService response cleaning (src/core/ai_manager.py) -/

namespace AIService

/-- The alternatives of the skip regex
`^(This|The|Note|Explanation|Result|Here|Now)` (case-insensitive). -/
def skipRegexWords : List String :=
  ["This", "The", "Note", "Explanation", "Result", "Here", "Now"]

/-- The alternatives of the stop regex `^(This|The|Note|Explanation)`
(case-insensitive) guarding the `break`. -/
def stopRegexWords : List String :=
  ["This", "The", "Note", "Explanation"]

/-- `re.match(r"^(w1|w2|...)", s, re.IGNORECASE)` as a Boolean: does `s`
start (case-insensitively) with one of the words? -/
def matchesAnyCI (s : String) (words : List String) : Bool :=
  words.any (fun w => pyStartsWith (pyUpper s) (pyUpper w))

/-- The explanation-removal loop of `_clean_code`: keep non-empty lines not
matching the skip regex; on the first line matching the stop regex, break,
discarding the remainder; other matching (or empty) lines are skipped. -/
def cleanLines : List String → List String
  | [] => []
  | line :: rest =>
    let stripped := pyStrip line
    if (stripped != "") && !(matchesAnyCI stripped skipRegexWords) then
      line :: cleanLines rest
    else if matchesAnyCI stripped stopRegexWords then []
    else cleanLines rest

/-- `AIService._clean_code`. -/
def clean_code (raw_response : String) (mode : String) : String :=
  let code := pyReplace raw_response ("```" ++ mode) ""
  let code := pyReplace code "```sql" ""
  let code := pyReplace code "```python" ""
  let code := pyReplace code "```" ""
  let code := pyStrip code
  let code := pyStrip (pyJoin "\n" (cleanLines (pySplit code "\n")))
  if (mode == "sql") && pyContains code ";" then
    pyStrip ((pySplit code ";").headD "") ++ ";"
  else code

/-- The cleaning loop as claim C8 words it: every line starting with any of
the seven explanatory words truncates the remainder. -/
def cleanLinesClaimed : List String → List String
  | [] => []
  | line :: rest =>
    let stripped := pyStrip line
    if (stripped != "") && !(matchesAnyCI stripped skipRegexWords) then
      line :: cleanLinesClaimed rest
    else if matchesAnyCI stripped skipRegexWords then []
    else cleanLinesClaimed rest

/-- `_clean_code` as claim C8 describes it (identical except for the
truncation rule). -/
def clean_code_claimed (raw_response : String) (mode : String) : String :=
  let code := pyReplace raw_response ("```" ++ mode) ""
  let code := pyReplace code "```sql" ""
  let code := pyReplace code "```python" ""
  let code := pyReplace code "```" ""
  let code := pyStrip code
  let code := pyStrip (pyJoin "\n" (cleanLinesClaimed (pySplit code "\n")))
  if (mode == "sql") && pyContains code ";" then
    pyStrip ((pySplit code ";").headD "") ++ ";"
  else code

/-- The explanation-removal behaviour of `_clean_code`, described
structurally: the kept lines are those before the first stop-regex line
(`This|The|Note|Explanation`), filtered to drop blank lines and lines
matching the skip regex (the seven words).  Lines starting with
`Result|Here|Now` are dropped but do not truncate. -/
def clean_code_spec (raw_response : String) (mode : String) : String :=
  let code := pyReplace raw_response ("```" ++ mode) ""
  let code := pyReplace code "```sql" ""
  let code := pyReplace code "```python" ""
  let code := pyReplace code "```" ""
  let code := pyStrip code
  let kept := ((pySplit code "\n").takeWhile
      (fun l => !(matchesAnyCI (pyStrip l) stopRegexWords))).filter
      (fun l => (pyStrip l != "") && !(matchesAnyCI (pyStrip l) skipRegexWords))
  let code := pyStrip (pyJoin "\n" kept)
  if (mode == "sql") && pyContains code ";" then
    pyStrip ((pySplit code ";").headD "") ++ ";"
  else code

end AIService

/-- A stop-regex match is also a skip-regex match (the four stop words are
among the seven skip words). -/
theorem matches_stop_matches_skip (s : String) :
    AIService.matchesAnyCI s AIService.stopRegexWords = true →
    AIService.matchesAnyCI s AIService.skipRegexWords = true := by
  simp only [AIService.matchesAnyCI, AIService.stopRegexWords, AIService.skipRegexWords,
    List.any_cons, List.any_nil, Bool.or_eq_true]
  tauto

/-- The explanation-removal loop equals its takeWhile/filter description. -/
theorem cleanLines_characterization (ls : List String) :
    AIService.cleanLines ls
      = (ls.takeWhile (fun l => !(AIService.matchesAnyCI (pyStrip l) AIService.stopRegexWords))).filter
          (fun l => (pyStrip l != "") && !(AIService.matchesAnyCI (pyStrip l) AIService.skipRegexWords)) := by
  induction ls with
  | nil => rfl
  | cons line rest ih =>
    simp only [AIService.cleanLines]
    by_cases hkeep : ((pyStrip line != "") && !(AIService.matchesAnyCI (pyStrip line) AIService.skipRegexWords)) = true
    · have hstop : AIService.matchesAnyCI (pyStrip line) AIService.stopRegexWords = false := by
        rcases Bool.and_eq_true .. |>.mp hkeep with ⟨-, hns⟩
        rcases hq : AIService.matchesAnyCI (pyStrip line) AIService.stopRegexWords with _ | _
        · rfl
        · have := matches_stop_matches_skip (pyStrip line) hq
          simp [this] at hns
      simp [hkeep, List.takeWhile_cons, hstop, List.filter_cons, ih]
    · simp only [hkeep, Bool.false_eq_true, if_false]
      by_cases hstop : AIService.matchesAnyCI (pyStrip line) AIService.stopRegexWords = true
      · simp [hstop, List.takeWhile_cons]
      · simp only [Bool.not_eq_true] at hstop
        simp [hstop, List.takeWhile_cons, List.filter_cons, hkeep, ih]

/-- Counterexample to claim C8 as stated: a line starting with `Here` is
dropped but does not truncate — the following code line survives in the
code's output, while the claimed behaviour discards it. -/
theorem clean_code_keeps_code_after_here_line :
    AIService.clean_code "Here is the query:\nSELECT 1" "sql" = "SELECT 1"
      ∧ AIService.clean_code_claimed "Here is the query:\nSELECT 1" "sql" = "" := by
  constructor <;> rfl

/-- Claim C8 (amended): `_clean_code` removes the fences, drops blank and
skip-regex lines, truncates only at the first stop-regex line
(`This/The/Note/Explanation` — lines starting with `Result/Here/Now` are
dropped without truncating), and in SQL mode keeps the stripped text before
the first `;` followed by a single `;`. -/
theorem clean_code_amended_characterization (raw_response mode : String) :
    AIService.clean_code raw_response mode = AIService.clean_code_spec raw_response mode := by
  unfold AIService.clean_code AIService.clean_code_spec
  simp only [cleanLines_characterization]

/-! ## Input detection and the code-mode handler (src/utils/helper.py) -/

/-- `is_raw_sql`. -/
def is_raw_sql (text : String) : Bool :=
  let text_stripped := pyUpper (pyStrip text)
  if pyStartsWith text_stripped "SELECT" && pyContains text_stripped " FROM " then true
  else if pyStartsWith text_stripped "WITH" && pyContains text_stripped " AS " then true
  else if ["CREATE ", "ALTER ", "DROP ", "INSERT ", "UPDATE ", "DELETE "].any
      (fun kw => pyStartsWith text_stripped kw) then true
  else false

/-- `is_raw_python`. -/
def is_raw_python (text : String) : Bool :=
  let t := pyStrip text
  [pyStartsWith t "import ", pyStartsWith t "from ", pyStartsWith t "def ",
   pyStartsWith t "class ", pyContains t "pd.", pyContains t "px.",
   pyContains t "df.", pyContains t "df[", pyContains t ".plot(",
   pyContains t ".groupby("].any id

/-- `GenerationMetadata` from src/core/ai_manager.py (cost modelled as an
exact rational). -/
structure GenerationMetadata where
  model : String
  input_tokens : Nat
  output_tokens : Nat
  cost : ℚ
  source : String
deriving Repr, DecidableEq

/-- The `error_context` dict `{"failed_query": ..., "error": ...}` handed to
the next generation attempt. -/
structure ErrorContext where
  failed_query : String
  error : String
deriving Repr, DecidableEq

/-- A dict appended to `state.display_messages` (the fields the claims
refer to; fields absent from a given dict are `none`). -/
structure DisplayMessage where
  role : String
  content : String
  mode : String
  executed_code : Option String := none
  source : Option String := none
  error : Option String := none
deriving Repr, DecidableEq

/-- A call made on the shared `context_manager` during `handle_code_mode`. -/
inductive CtxEvent where
  | userMsg (text mode : String)
  | errorEvt (code error mode : String)
  | sqlResult (code : String)
  | pythonResult (code : String)
deriving Repr, DecidableEq

/-- Observable effects of one `handle_code_mode` call: the generation calls
(with the failure context passed to each), the metadata of each generation
attempt, the codes passed to the executor, each `state.total_cost +=`
increment, `state.api_calls` increments, `state.cost_history` appends, the
context-manager calls, and the display messages appended. -/
structure RunLog where
  genCalls : List (Option ErrorContext) := []
  attemptMetas : List GenerationMetadata := []
  execCalls : List String := []
  costAdds : List ℚ := []
  apiCalls : Nat := 0
  costHistory : List (GenerationMetadata × String) := []
  ctxEvents : List CtxEvent := []
  displayMessages : List DisplayMessage := []
deriving Repr

/-- The cost-accounting block repeated at the three accounting points of
`handle_code_mode` (`state.total_cost += metadata.cost`,
`state.api_calls += 1`, conditional `state.cost_history.append`). -/
def RunLog.addCost (log : RunLog) (meta : GenerationMetadata) (mode : String) : RunLog :=
  { log with
      costAdds := log.costAdds ++ [meta.cost]
      apiCalls := log.apiCalls + 1
      costHistory :=
        if meta.cost > 0 then log.costHistory ++ [(meta, mode)] else log.costHistory }

/-- How one `handle_code_mode` call ended. -/
inductive CodeModeOutcome (ρ : Type) where
  | completed (code : String) (result : Option ρ) (meta : GenerationMetadata) (attempt : Nat)
  | directError (code error : String)
  | exhausted (code error : String) (meta : GenerationMetadata)
  | crashed
deriving Repr

/-- The `SUCCESS PATH` tail of `handle_code_mode`: record the result with
the context manager, append the display message, and account the cost of
the final metadata. -/
def successPath {ρ : Type} (mode code : String) (result : Option ρ)
    (meta : GenerationMetadata) (attempt : Nat) (log : RunLog) :
    CodeModeOutcome ρ × RunLog :=
  let log :=
    if mode == "sql" then
      { log with
          ctxEvents := log.ctxEvents ++ [CtxEvent.sqlResult code]
          displayMessages := log.displayMessages ++
            [({ role := "assistant", content := "SQL query executed", mode := "sql",
                executed_code := some code, source := some meta.source } : DisplayMessage)] }
    else
      { log with
          ctxEvents := log.ctxEvents ++ [CtxEvent.pythonResult code]
          displayMessages := log.displayMessages ++
            [({ role := "assistant", content := "Python code executed", mode := "python",
                executed_code := some code, source := some meta.source } : DisplayMessage)] }
  let log := log.addCost meta mode
  (CodeModeOutcome.completed code result meta attempt, log)

/-- The `while attempt <= max_attempts` retry loop of `handle_code_mode`.
`gen` is the generation call (`generate_sql` / `generate_python`) for the
current attempt and failure context; `exek` is the executor call.  The fuel
argument only bounds the recursion and is chosen large enough at the call
site; the loop guard itself is the explicit `attempt ≤ maxAttempts` test.
`CodeModeOutcome.crashed` marks the fall-through where the loop body never
ran and Python would hit its unbound `result` variable (only reachable with
`max_attempts < 1`). -/
def codeLoop {ρ : Type} (mode : String)
    (gen : Nat → Option ErrorContext → String × GenerationMetadata)
    (exek : String → Option ρ × Option String) (maxAttempts : Nat) :
    Nat → Nat → Option ErrorContext → RunLog → CodeModeOutcome ρ × RunLog
  | 0, _, _, log => (CodeModeOutcome.crashed, log)
  | fuel + 1, attempt, error_context, log =>
    if attempt ≤ maxAttempts then
      let (code, meta) := gen attempt error_context
      let log := { log with
          genCalls := log.genCalls ++ [error_context]
          attemptMetas := log.attemptMetas ++ [meta]
          execCalls := log.execCalls ++ [code] }
      let (result, error) := exek code
      if errTruthy error then
        let e := error.getD ""
        if attempt < maxAttempts then
          let log := log.addCost meta mode
          codeLoop mode gen exek maxAttempts fuel (attempt + 1)
            (some { failed_query := code, error := e }) log
        else
          let log := { log with
              ctxEvents := log.ctxEvents ++ [CtxEvent.errorEvt code e mode]
              displayMessages := log.displayMessages ++
                [({ role := "assistant",
                    content := "Error after " ++ toString maxAttempts ++ " attempts: " ++ e,
                    mode := mode, executed_code := some code, source := some meta.source,
                    error := some e } : DisplayMessage)] }
          let log := log.addCost meta mode
          (CodeModeOutcome.exhausted code e meta, log)
      else
        successPath mode code result meta attempt log
    else (CodeModeOutcome.crashed, log)

/-- The log after the prelude of `handle_code_mode`: the user message has
been recorded with the context manager and appended to
`state.display_messages`. -/
def initLog (mode user_input : String) : RunLog :=
  { ctxEvents := [CtxEvent.userMsg user_input mode]
    displayMessages := [{ role := "user", content := user_input, mode := mode }] }

/-- `handle_code_mode`: record the user message, branch on literal-code
detection; literal code executes exactly once with a synthetic `direct`
metadata and no retry; a natural-language request enters the retry loop
with no failure context and `attempt = 1`. -/
def handle_code_mode {ρ : Type} (mode user_input : String)
    (gen : Nat → Option ErrorContext → String × GenerationMetadata)
    (exek : String → Option ρ × Option String)
    (maxAttempts : Nat := 2) : CodeModeOutcome ρ × RunLog :=
  let log : RunLog := initLog mode user_input
  let is_raw := if mode == "sql" then is_raw_sql user_input else is_raw_python user_input
  if is_raw then
    let code := pyStrip user_input
    let meta : GenerationMetadata :=
      { model := "none", input_tokens := 0, output_tokens := 0, cost := 0, source := "direct" }
    let (result, error) := exek code
    let log := { log with execCalls := log.execCalls ++ [code] }
    if errTruthy error then
      let e := error.getD ""
      let log := { log with
          ctxEvents := log.ctxEvents ++ [CtxEvent.errorEvt code e mode]
          displayMessages := log.displayMessages ++
            [({ role := "assistant", content := "Error: " ++ e, mode := mode,
                executed_code := some code, source := some "direct", error := some e } : DisplayMessage)] }
      (CodeModeOutcome.directError code e, log)
    else
      successPath mode code result meta 1 log
  else
    codeLoop mode gen exek maxAttempts (maxAttempts + 1) 1 none log

/-- The retry loop never removes generation-call records: the final log has
at least as many as the log it started from. -/
theorem codeLoop_genCalls_mono {ρ : Type} (mode : String)
    (gen : Nat → Option ErrorContext → String × GenerationMetadata)
    (exek : String → Option ρ × Option String) (maxAttempts : Nat) :
    ∀ (fuel attempt : Nat) (ctx : Option ErrorContext) (log : RunLog),
      log.genCalls.length
        ≤ ((codeLoop mode gen exek maxAttempts fuel attempt ctx log).2).genCalls.length := by
  intro fuel
  induction fuel with
  | zero => intro attempt ctx log; simp [codeLoop]
  | succ fuel ih =>
    intro attempt ctx log
    by_cases hatt : attempt ≤ maxAttempts
    · rcases hg : gen attempt ctx with ⟨code, meta⟩
      rcases hx : exek code with ⟨result, error⟩
      by_cases herr : errTruthy error = true
      · by_cases hlt : attempt < maxAttempts
        · simp only [codeLoop, hatt, if_true, hg, hx, herr, hlt]
          refine le_trans ?_ (ih (attempt + 1) _ _)
          simp [RunLog.addCost]
        · simp only [codeLoop, hatt, if_true, hg, hx, herr, hlt, if_false]
          simp [RunLog.addCost]
      · by_cases hm : (mode == "sql") = true <;>
          simp [codeLoop, hatt, hg, hx, herr, successPath, RunLog.addCost, hm]
    · simp [codeLoop, hatt]

/-- Loop invariant for cost accounting: if the incoming log has one
`total_cost` increment per recorded generation attempt, with exactly that
attempt's cost, then so does the final log. -/
theorem codeLoop_cost_once {ρ : Type} (mode : String)
    (gen : Nat → Option ErrorContext → String × GenerationMetadata)
    (exek : String → Option ρ × Option String) (maxAttempts : Nat) :
    ∀ (fuel attempt : Nat) (ctx : Option ErrorContext) (log : RunLog),
      log.costAdds = log.attemptMetas.map (fun m => m.cost) →
      ((codeLoop mode gen exek maxAttempts fuel attempt ctx log).2).costAdds
        = ((codeLoop mode gen exek maxAttempts fuel attempt ctx log).2).attemptMetas.map
            (fun m => m.cost) := by
  intro fuel
  induction fuel with
  | zero => intro attempt ctx log h; simpa [codeLoop] using h
  | succ fuel ih =>
    intro attempt ctx log h
    by_cases hatt : attempt ≤ maxAttempts
    · rcases hg : gen attempt ctx with ⟨code, meta⟩
      rcases hx : exek code with ⟨result, error⟩
      by_cases herr : errTruthy error = true
      · by_cases hlt : attempt < maxAttempts
        · simp only [codeLoop, hatt, if_true, hg, hx, herr, hlt]
          exact ih (attempt + 1) _ _ (by simp [RunLog.addCost, h])
        · simp only [codeLoop, hatt, if_true, hg, hx, herr, hlt, if_false]
          simp [RunLog.addCost, h]
      · by_cases hm : (mode == "sql") = true <;>
          simp [codeLoop, hatt, hg, hx, herr, successPath, RunLog.addCost, hm, h]
    · simpa [codeLoop, hatt] using h

/-- Claim C2: on a natural-language SQL request whose first attempt fails in
execution and whose second attempt succeeds (with `max_attempts = 2`), the
handler completes successfully on attempt 2 after exactly two generation
calls, and the failure context passed to the second generation call is
exactly attempt 1's code and error. -/
theorem handle_code_mode_retry_success_second_attempt
    {ρ : Type}
    (gen : Nat → Option ErrorContext → String × GenerationMetadata)
    (exek : String → Option ρ × Option String)
    (user_input c1 e1 c2 : String) (m1 m2 : GenerationMetadata) (r2 : ρ)
    (hnl : is_raw_sql user_input = false)
    (hg1 : gen 1 none = (c1, m1))
    (hx1 : exek c1 = (none, some e1)) (he1 : e1 ≠ "")
    (hg2 : gen 2 (some { failed_query := c1, error := e1 }) = (c2, m2))
    (hx2 : exek c2 = (some r2, none)) :
    (handle_code_mode "sql" user_input gen exek 2).1
        = CodeModeOutcome.completed c2 (some r2) m2 2
      ∧ (handle_code_mode "sql" user_input gen exek 2).2.genCalls
        = [none, some { failed_query := c1, error := e1 }]
      ∧ (handle_code_mode "sql" user_input gen exek 2).2.attemptMetas = [m1, m2] := by
  simp [handle_code_mode, initLog, codeLoop, successPath, RunLog.addCost, errTruthy,
    hnl, hg1, hx1, hg2, hx2, he1]

/-- Metadata of a first stub generation attempt. -/
def stubMeta1 : GenerationMetadata :=
  { model := "model-a", input_tokens := 10, output_tokens := 5, cost := 1, source := "generated" }

/-- Metadata of a second stub generation attempt. -/
def stubMeta2 : GenerationMetadata :=
  { model := "model-b", input_tokens := 12, output_tokens := 6, cost := 2, source := "generated" }

/-- A generator stub: attempt 1 yields code `"BAD"`, later attempts `"GOOD"`. -/
def genStub : Nat → Option ErrorContext → String × GenerationMetadata :=
  fun attempt _ => if attempt = 1 then ("BAD", stubMeta1) else ("GOOD", stubMeta2)

/-- An executor stub failing on `"BAD"` and succeeding otherwise. -/
def exekStub : String → Option Nat × Option String :=
  fun code => if code = "BAD" then (none, some "boom") else (some 7, none)

/-- An executor stub failing on every input. -/
def exekFailStub : String → Option Nat × Option String :=
  fun code => if code = "BAD" then (none, some "boom") else (none, some "crash")

/-- Witness for C2 at the concrete fail-then-succeed stubs. -/
theorem handle_code_mode_retry_success_witness :
    (handle_code_mode "sql" "fix my data" genStub exekStub 2).1
        = CodeModeOutcome.completed "GOOD" (some 7) stubMeta2 2
      ∧ (handle_code_mode "sql" "fix my data" genStub exekStub 2).2.genCalls
        = [none, some { failed_query := "BAD", error := "boom" }]
      ∧ (handle_code_mode "sql" "fix my data" genStub exekStub 2).2.attemptMetas
        = [stubMeta1, stubMeta2] :=
  handle_code_mode_retry_success_second_attempt genStub exekStub
    "fix my data" "BAD" "boom" "GOOD" stubMeta1 stubMeta2 7
    (by decide) rfl rfl (by decide) rfl rfl

/-- Claim C3: on a natural-language SQL request failing on both attempts
(with `max_attempts = 2`), the handler ends exhausted after exactly two
generation attempts, and the attempt-2 error text is recorded verbatim in
the appended display message (both in its `content` and its `error`
field). -/
theorem handle_code_mode_exhaustion_surfaces_error
    {ρ : Type}
    (gen : Nat → Option ErrorContext → String × GenerationMetadata)
    (exek : String → Option ρ × Option String)
    (user_input c1 e1 c2 e2 : String) (m1 m2 : GenerationMetadata)
    (hnl : is_raw_sql user_input = false)
    (hg1 : gen 1 none = (c1, m1))
    (hx1 : exek c1 = (none, some e1)) (he1 : e1 ≠ "")
    (hg2 : gen 2 (some { failed_query := c1, error := e1 }) = (c2, m2))
    (hx2 : exek c2 = (none, some e2)) (he2 : e2 ≠ "") :
    (handle_code_mode "sql" user_input gen exek 2).1 = CodeModeOutcome.exhausted c2 e2 m2
      ∧ (handle_code_mode "sql" user_input gen exek 2).2.genCalls.length = 2
      ∧ (handle_code_mode "sql" user_input gen exek 2).2.displayMessages.getLast?
        = some { role := "assistant", content := "Error after 2 attempts: " ++ e2,
                 mode := "sql", executed_code := some c2, source := some m2.source,
                 error := some e2 } := by
  simp [handle_code_mode, initLog, codeLoop, successPath, RunLog.addCost, errTruthy,
    hnl, hg1, hx1, hg2, hx2, he1, he2, ← String.append_assoc,
    show (("Error after " ++ toString (2 : Nat)) ++ " attempts: ")
      = "Error after 2 attempts: " from rfl]

/-- Witness for C3 at the concrete always-failing stubs. -/
theorem handle_code_mode_exhaustion_witness :
    (handle_code_mode "sql" "fix my data" genStub exekFailStub 2).1
        = CodeModeOutcome.exhausted "GOOD" "crash" stubMeta2
      ∧ (handle_code_mode "sql" "fix my data" genStub exekFailStub 2).2.genCalls.length = 2
      ∧ (handle_code_mode "sql" "fix my data" genStub exekFailStub 2).2.displayMessages.getLast?
        = some { role := "assistant", content := "Error after 2 attempts: " ++ "crash",
                 mode := "sql", executed_code := some "GOOD", source := some stubMeta2.source,
                 error := some "crash" } :=
  handle_code_mode_exhaustion_surfaces_error genStub exekFailStub
    "fix my data" "BAD" "boom" "GOOD" "crash" stubMeta1 stubMeta2
    (by decide) rfl rfl (by decide) rfl rfl (by decide)

/-- The retry loop preserves nonemptiness of the generation-call record. -/
theorem codeLoop_genCalls_ne_nil_of_ne_nil {ρ : Type} (mode : String)
    (gen : Nat → Option ErrorContext → String × GenerationMetadata)
    (exek : String → Option ρ × Option String) (maxAttempts : Nat) :
    ∀ (fuel attempt : Nat) (ctx : Option ErrorContext) (log : RunLog),
      log.genCalls ≠ [] →
      ((codeLoop mode gen exek maxAttempts fuel attempt ctx log).2).genCalls ≠ [] := by
  intro fuel
  induction fuel with
  | zero => intro attempt ctx log h; simpa [codeLoop] using h
  | succ fuel ih =>
    intro attempt ctx log h
    by_cases hatt : attempt ≤ maxAttempts
    · rcases hg : gen attempt ctx with ⟨code, meta⟩
      rcases hx : exek code with ⟨result, error⟩
      by_cases herr : errTruthy error = true
      · by_cases hlt : attempt < maxAttempts
        · simp only [codeLoop, hatt, if_true, hg, hx, herr, hlt]
          exact ih (attempt + 1) _ _ (by simp [RunLog.addCost])
        · simp [codeLoop, hatt, hg, hx, herr, hlt, RunLog.addCost]
      · by_cases hm : (mode == "sql") = true <;>
          simp [codeLoop, hatt, hg, hx, herr, successPath, RunLog.addCost, hm]
    · simpa [codeLoop, hatt] using h

/-- If the loop guard allows the first iteration, at least one generation
call is recorded. -/
theorem codeLoop_enters_generation {ρ : Type} (mode : String)
    (gen : Nat → Option ErrorContext → String × GenerationMetadata)
    (exek : String → Option ρ × Option String) (maxAttempts fuel attempt : Nat)
    (ctx : Option ErrorContext) (log : RunLog) (hatt : attempt ≤ maxAttempts) :
    ((codeLoop mode gen exek maxAttempts (fuel + 1) attempt ctx log).2).genCalls ≠ [] := by
  rcases hg : gen attempt ctx with ⟨code, meta⟩
  rcases hx : exek code with ⟨result, error⟩
  by_cases herr : errTruthy error = true
  · by_cases hlt : attempt < maxAttempts
    · simp only [codeLoop, hatt, if_true, hg, hx, herr, hlt]
      exact codeLoop_genCalls_ne_nil_of_ne_nil mode gen exek maxAttempts fuel
        (attempt + 1) _ _ (by simp [RunLog.addCost])
    · simp [codeLoop, hatt, hg, hx, herr, hlt, RunLog.addCost]
  · by_cases hm : (mode == "sql") = true <;>
      simp [codeLoop, hatt, hg, hx, herr, successPath, RunLog.addCost, hm]

/-- Claim C6: `"SELECT * FROM orders"` is classified as literal SQL; in SQL
mode `handle_code_mode` then makes no generation call and exactly one
executor call (no retry), whatever the executor returns.
`"show me the top orders"` is classified as natural language and enters the
generation path (at least one generation call is made). -/
theorem raw_sql_detection_and_bypass :
    is_raw_sql "SELECT * FROM orders" = true
      ∧ is_raw_sql "show me the top orders" = false
      ∧ (∀ (ρ : Type) (gen : Nat → Option ErrorContext → String × GenerationMetadata)
          (exek : String → Option ρ × Option String),
          (handle_code_mode "sql" "SELECT * FROM orders" gen exek 2).2.genCalls = []
            ∧ (handle_code_mode "sql" "SELECT * FROM orders" gen exek 2).2.execCalls
              = ["SELECT * FROM orders"])
      ∧ (∀ (ρ : Type) (gen : Nat → Option ErrorContext → String × GenerationMetadata)
          (exek : String → Option ρ × Option String),
          (handle_code_mode "sql" "show me the top orders" gen exek 2).2.genCalls ≠ []) := by
  refine ⟨by decide, by decide, ?_, ?_⟩
  · intro ρ gen exek
    rcases hx : exek "SELECT * FROM orders" with ⟨result, error⟩
    by_cases herr : errTruthy error = true <;>
      simp [handle_code_mode, initLog, successPath, RunLog.addCost, hx, herr,
        show is_raw_sql "SELECT * FROM orders" = true by decide,
        show pyStrip "SELECT * FROM orders" = "SELECT * FROM orders" by decide]
  · intro ρ gen exek
    have h : handle_code_mode "sql" "show me the top orders" gen exek 2
        = codeLoop "sql" gen exek 2 3 1 none (initLog "sql" "show me the top orders") := by
      simp [handle_code_mode, show is_raw_sql "show me the top orders" = false by decide]
    rw [h]
    exact codeLoop_enters_generation "sql" gen exek 2 2 1 none _ (by omega)

/-- Claim C7: on the natural-language path, whatever the generator, the
executor, and the attempt bound, the sequence of `state.total_cost`
increments is exactly the per-attempt generation costs, each attempt
counted once, in order. -/
theorem generation_cost_counted_exactly_once {ρ : Type}
    (mode user_input : String)
    (gen : Nat → Option ErrorContext → String × GenerationMetadata)
    (exek : String → Option ρ × Option String) (maxAttempts : Nat)
    (hnl : (if mode == "sql" then is_raw_sql user_input else is_raw_python user_input)
      = false) :
    ((handle_code_mode mode user_input gen exek maxAttempts).2).costAdds
      = ((handle_code_mode mode user_input gen exek maxAttempts).2).attemptMetas.map
          (fun m => m.cost) := by
  unfold handle_code_mode
  simp only [hnl, Bool.false_eq_true, if_false]
  exact codeLoop_cost_once mode gen exek maxAttempts (maxAttempts + 1) 1 none _ rfl

/-- Witness for C7 at concrete stubs (two failing attempts). -/
theorem generation_cost_once_witness :
    ((handle_code_mode "sql" "hello there" genStub exekFailStub 2).2).costAdds
      = ((handle_code_mode "sql" "hello there" genStub exekFailStub 2).2).attemptMetas.map
          (fun m => m.cost) :=
  generation_cost_counted_exactly_once "sql" "hello there" genStub exekFailStub 2 (by decide)
